import Mathlib

/-!
Shallow embedding of the Tomasulo-algorithm simulator
(src/cdb.py, src/units.py, src/main.py).

Python objects become Lean structures; the in-place mutation of each
Python method becomes a function returning the updated structure(s).
All simulated data values are Python strings in the source (register
contents are initialized to strings such as "R(F0)", memory values to
strings such as "M(34)", and the CDB carries strings), so values are
modelled as `String`.  A Python exception (TypeError, KeyError,
ValueError, UnboundLocalError) is modelled as `none` / `Except.error`.
Python integers that can go negative (the cycle counters) are `Int`.
-/

set_option linter.unusedVariables false

/-! ### Python helpers

The source relies on a few Python built-ins; they are embedded here,
restricted to the ways the source actually uses them. -/

/-- Python truthiness for the two kinds of value the source passes as the
`base` argument of `issue_load` / `issue_store`: a string (unit-level API)
or an `int` program counter (what `main.py` actually passes).  An f-string
renders either as text via `fmt`. -/
inductive PyVal where
  | str (s : String)
  | int (n : Nat)
deriving DecidableEq

def PyVal.truthy : PyVal → Bool
  | .str s => s ≠ ""
  | .int n => n ≠ 0

def PyVal.fmt : PyVal → String
  | .str s => s
  | .int n => toString n

/-- Python `s.split(" ")` on a list of characters: split at every single
space, keeping empty pieces. -/
def splitSpacesAux : List Char → List (List Char)
  | [] => [[]]
  | c :: rest =>
    let r := splitSpacesAux rest
    if c = ' ' then [] :: r
    else
      match r with
      | [] => [[c]]
      | w :: ws => (c :: w) :: ws

/-- Python `instruction.split(" ")` as used by `CPU.issue`. -/
def pySplit (s : String) : List String :=
  (splitSpacesAux s.toList).map (fun w => String.mk w)

/-- Python `src.replace("+", "")` for the single-character pattern used by
`CPU.issue`: drop every "+". -/
def removePlus (s : String) : String :=
  String.mk (s.toList.filter (fun c => c ≠ '+'))

/-- Python `int(r[1:])` on a register name such as "F6"; the source raises
ValueError on malformed text, and every instruction considered here is
well-formed, so only the digit case is modelled. -/
def regIndex (r : String) : Nat :=
  (r.toList.drop 1).foldl (fun acc c => acc * 10 + (c.toNat - 48)) 0

/-- Python dict lookup `d[k]` on the per-op latency dict, keys in issue
order; `none` models the KeyError raised for an absent key. -/
def lookup (d : List (String × Int)) (k : String) : Option Int :=
  match d.find? (fun p => p.1 == k) with
  | some p => some p.2
  | none => none

/-- Python `d.get(k, default)` on the memory dict. -/
def memGet (m : List (String × String)) (k d : String) : String :=
  match m.find? (fun p => p.1 == k) with
  | some p => p.2
  | none => d

/-- Python `d[k] = v` on the memory dict. -/
def memSet : List (String × String) → String → String → List (String × String)
  | [], k, v => [(k, v)]
  | (k0, v0) :: rest, k, v =>
    if k0 == k then (k, v) :: rest else (k0, v0) :: memSet rest k v

/-- In-place update of one list element, used for the Python pattern
`self.__xs[i] = {...}` / field assignment on `self.__xs[i]`. -/
def listModify (l : List α) (i : Nat) (f : α → α) : List α :=
  match l, i with
  | [], _ => []
  | a :: as, 0 => f a :: as
  | a :: as, n + 1 => a :: listModify as n f

/-! ### CommonDataBus (src/cdb.py) -/

structure CommonDataBus where
  tag : String
  data : String
  new_tag : String
  new_data : String
deriving DecidableEq

/-- `CommonDataBus.__init__`. -/
def CommonDataBus.init : CommonDataBus := ⟨"", "", "", ""⟩

/-- `CommonDataBus.read`. -/
def CommonDataBus.read (c : CommonDataBus) : String × String := (c.tag, c.data)

/-- `CommonDataBus.write`: stage only. -/
def CommonDataBus.write (c : CommonDataBus) (tag data : String) : CommonDataBus :=
  { c with new_tag := tag, new_data := data }

/-- `CommonDataBus.tick`: commit the staged pair and clear the staged slot. -/
def CommonDataBus.tick (c : CommonDataBus) : CommonDataBus :=
  ⟨c.new_tag, c.new_data, "", ""⟩

/-! ### FPRegisterFile (src/units.py) -/

structure RegEntry where
  fu : String
  data : String
deriving DecidableEq

structure FPRegisterFile where
  n_registers : Nat
  registers : List RegEntry
deriving DecidableEq

/-- `FPRegisterFile.__init__` (the CDB reference held by the Python object
is passed explicitly to each method instead). -/
def FPRegisterFile.init (n : Nat) : FPRegisterFile :=
  ⟨n, (List.range n).map (fun i => ⟨"", "R(F" ++ toString i ++ ")"⟩)⟩

/-- `FPRegisterFile.read`. -/
def FPRegisterFile.read (rf : FPRegisterFile) (c : CommonDataBus) (register : Nat) :
    String × String :=
  let tag := c.read.1
  let data := c.read.2
  let entry := rf.registers.getD register ⟨"", ""⟩
  if tag == entry.fu then (data, "")
  else if entry.fu == "" then (entry.data, "")
  else ("0.0", entry.fu)

/-- `FPRegisterFile.set_fu`. -/
def FPRegisterFile.set_fu (rf : FPRegisterFile) (register : Nat) (fu : String) :
    FPRegisterFile :=
  { rf with registers := listModify rf.registers register (fun e => { e with fu := fu }) }

/-- `FPRegisterFile.tick`. -/
def FPRegisterFile.tick (rf : FPRegisterFile) (c : CommonDataBus) : FPRegisterFile :=
  let tag := c.read.1
  let data := c.read.2
  if tag ≠ "" then
    { rf with registers := rf.registers.map (fun e => if e.fu == tag then ⟨"", data⟩ else e) }
  else rf

/-! ### MemoryUnit (src/units.py) -/

structure LoadEntry where
  busy : Bool
  address : String
  base_fu : String
deriving DecidableEq

structure StoreEntry where
  busy : Bool
  address : String
  data : String
  base_fu : String
  data_fu : String
deriving DecidableEq

/-- The slot placeholder of `MemoryUnit.__init__` (Python puts the int `0`
and float `0.0` there; they are never read before being overwritten by an
issue, and are rendered here as the strings "0" / "0.0"). -/
def LoadEntry.empty : LoadEntry := ⟨false, "0", ""⟩

def StoreEntry.empty : StoreEntry := ⟨false, "0", "0.0", "", ""⟩

structure MemoryUnit where
  n_buffers : Nat
  n_cycles : Int
  memory : List (String × String)
  load_buffers : List LoadEntry
  load_buffer_head : Nat
  load_buffer_tail : Nat
  load_cycle_counter : Int
  store_buffers : List StoreEntry
  store_buffer_head : Nat
  store_buffer_tail : Nat
deriving DecidableEq

/-- `MemoryUnit.__init__`. -/
def MemoryUnit.init (n_buffers : Nat) (n_cycles : Int) : MemoryUnit :=
  { n_buffers := n_buffers
    n_cycles := n_cycles
    memory := []
    load_buffers := List.replicate n_buffers LoadEntry.empty
    load_buffer_head := 0
    load_buffer_tail := 0
    load_cycle_counter := -1
    store_buffers := List.replicate n_buffers StoreEntry.empty
    store_buffer_head := 0
    store_buffer_tail := 0 }

/-- `MemoryUnit.issue_load`. -/
def MemoryUnit.issue_load (m : MemoryUnit) (base : PyVal) (base_fu offset : String) :
    String × MemoryUnit :=
  if (m.load_buffers.getD m.load_buffer_tail LoadEntry.empty).busy then ("", m)
  else
    ("Load" ++ toString m.load_buffer_tail,
     { m with
       load_buffers := m.load_buffers.set m.load_buffer_tail
         ⟨true, (if base.truthy then base.fmt ++ " + " ++ offset else offset), base_fu⟩
       load_buffer_tail := (m.load_buffer_tail + 1) % m.n_buffers })

/-- `MemoryUnit.issue_store`. -/
def MemoryUnit.issue_store (m : MemoryUnit) (base : PyVal)
    (base_fu offset data data_fu : String) : String × MemoryUnit :=
  if (m.store_buffers.getD m.store_buffer_tail StoreEntry.empty).busy then ("", m)
  else
    ("Store" ++ toString m.store_buffer_tail,
     { m with
       store_buffers := m.store_buffers.set m.store_buffer_tail
         ⟨true, (if base.truthy then base.fmt ++ " + " ++ offset else offset),
          data, base_fu, data_fu⟩
       store_buffer_tail := (m.store_buffer_tail + 1) % m.n_buffers })

/-- `MemoryUnit.tick`.  The CDB is threaded explicitly; the function
returns the updated unit and the CDB (onto which a result may have been
staged by `write`). -/
def MemoryUnit.tick (m : MemoryUnit) (c : CommonDataBus) : MemoryUnit × CommonDataBus :=
  -- Check CDB for required data
  let tag := c.read.1
  let data := c.read.2
  let m1 : MemoryUnit :=
    if tag ≠ "" then
      { m with
        load_buffers := m.load_buffers.map (fun e =>
          if e.busy && e.base_fu == tag then
            { e with address := data ++ " + " ++ e.address, base_fu := "" }
          else e)
        store_buffers := m.store_buffers.map (fun e =>
          if e.busy then
            let e1 := if e.base_fu == tag then
              { e with address := data ++ " + " ++ e.address, base_fu := "" } else e
            if e1.data_fu == tag then { e1 with data := data, data_fu := "" } else e1
          else e) }
    else m
  -- Load-buffer head
  let loadHead := m1.load_buffers.getD m1.load_buffer_head LoadEntry.empty
  let step2 : MemoryUnit × CommonDataBus :=
    if loadHead.busy && loadHead.base_fu == "" then
      if m1.load_cycle_counter == 0 then
        let address := loadHead.address
        let d := memGet m1.memory address ("M(" ++ address ++ ")")
        (({ m1 with
            load_buffer_head := (m1.load_buffer_head + 1) % m1.n_buffers
            load_cycle_counter := m1.n_cycles }),
         c.write ("Load" ++ toString m1.load_buffer_head) d)
      else ({ m1 with load_cycle_counter := m1.load_cycle_counter - 1 }, c)
    else (m1, c)
  let m2 := step2.1
  let c2 := step2.2
  -- Store-buffer head
  let storeHead := m2.store_buffers.getD m2.store_buffer_head StoreEntry.empty
  if storeHead.busy && storeHead.base_fu == "" && storeHead.data_fu == "" then
    ({ m2 with
       memory := memSet m2.memory storeHead.address storeHead.data
       store_buffer_head := (m2.store_buffer_head + 1) % m2.n_buffers },
     c2.write ("Store" ++ toString m2.store_buffer_head) storeHead.data)
  else (m2, c2)

/-- `MemoryUnit.finished`. -/
def MemoryUnit.finished (m : MemoryUnit) : Bool :=
  !(m.load_buffers.getD m.load_buffer_head LoadEntry.empty).busy
  && !(m.store_buffers.getD m.store_buffer_head StoreEntry.empty).busy

/-! ### FloatingPointUnit (src/units.py) -/

structure RSEntry where
  busy : Bool
  op : String
  Vj : String
  Vk : String
  Qj : String
  Qk : String
deriving DecidableEq

/-- The slot placeholder of `FloatingPointUnit.__init__` (Python stores the
floats `0.0`, rendered "0.0"). -/
def RSEntry.empty : RSEntry := ⟨false, "", "0.0", "0.0", "", ""⟩

structure FloatingPointUnit where
  name : String
  n_rs : Nat
  n_cycles : List (String × Int)
  rs : List RSEntry
  rs_head : Nat
  rs_tail : Nat
  cycle_counter : Int
deriving DecidableEq

/-- `FloatingPointUnit.__init__`. -/
def FloatingPointUnit.init (name : String) (n_rs : Nat)
    (n_cycles : List (String × Int)) : FloatingPointUnit :=
  { name := name
    n_rs := n_rs
    n_cycles := n_cycles
    rs := List.replicate n_rs RSEntry.empty
    rs_head := 0
    rs_tail := 0
    cycle_counter := -1 }

/-- `FloatingPointUnit.issue`. -/
def FloatingPointUnit.issue (u : FloatingPointUnit)
    (op op1 op1_fu op2 op2_fu : String) : String × FloatingPointUnit :=
  if (u.rs.getD u.rs_tail RSEntry.empty).busy then ("", u)
  else
    (u.name ++ toString u.rs_tail,
     { u with
       rs := u.rs.set u.rs_tail ⟨true, op, op1, op2, op1_fu, op2_fu⟩
       rs_tail := (u.rs_tail + 1) % u.n_rs })

/-- The execute dispatch of `FloatingPointUnit.tick`.  Every value reaching
it in the source is a Python string ("R(Fi)", "M(addr)", CDB data, ...), so
"ADDD" performs string concatenation; "SUBD"/"MULD"/"DIVD" apply `-`/`*`/`/`
to two strings, raising TypeError; any other op (notably the "MULTD" that
`main.py` issues) matches no branch, leaving `result` unbound
(UnboundLocalError).  Both failures are `none`. -/
def fpExec (op Vj Vk : String) : Option String :=
  if op == "ADDD" then some (Vj ++ Vk)
  else if op == "SUBD" then none
  else if op == "MULD" then none
  else if op == "DIVD" then none
  else none

/-- `FloatingPointUnit.tick`; `none` models a Python exception escaping it
(KeyError on a missing latency key, or the failures of `fpExec`). -/
def FloatingPointUnit.tick (u : FloatingPointUnit) (c : CommonDataBus) :
    Option (FloatingPointUnit × CommonDataBus) :=
  -- Check CDB for required data
  let tag := c.read.1
  let data := c.read.2
  let u1 : FloatingPointUnit :=
    if tag ≠ "" then
      { u with rs := u.rs.map (fun e =>
          if e.busy then
            let e1 := if e.Qj == tag then { e with Vj := data, Qj := "" } else e
            if e1.Qk == tag then { e1 with Vk := data, Qk := "" } else e1
          else e) }
    else u
  let head := u1.rs.getD u1.rs_head RSEntry.empty
  if head.busy then
    if u1.cycle_counter == -1 then
      if head.Qj == "" && head.Qk == "" then
        match lookup u1.n_cycles head.op with
        | some n => some ({ u1 with cycle_counter := n }, c)
        | none => none
      else some (u1, c)
    else
      let cc := u1.cycle_counter - 1
      if cc == 0 then
        match fpExec head.op head.Vj head.Vk with
        | some result =>
          some ({ u1 with
                  rs_head := (u1.rs_head + 1) % u1.n_rs
                  cycle_counter := -1 },
                c.write (u1.name ++ toString u1.rs_head) result)
        | none => none
      else some ({ u1 with cycle_counter := cc }, c)
  else some (u1, c)

/-- `FloatingPointUnit.finished`. -/
def FloatingPointUnit.finished (u : FloatingPointUnit) : Bool :=
  !(u.rs.getD u.rs_head RSEntry.empty).busy

/-! ### CPU (src/main.py) -/

/-- The latency dict `{"ADDD": 2, "SUBD": 2}` the CPU gives its adder. -/
def adderLatencies : List (String × Int) := [("ADDD", 2), ("SUBD", 2)]

/-- The latency dict `{"MULTD": 10, "DIVD": 20}` the CPU gives its
multiplier. -/
def multiplierLatencies : List (String × Int) := [("MULTD", 10), ("DIVD", 20)]

structure CPUState where
  instructions : List String
  issue_cycle : List Nat
  finish_cycle : List Nat
  cdb : CommonDataBus
  memory : MemoryUnit
  register_file : FPRegisterFile
  adder : FloatingPointUnit
  multiplier : FloatingPointUnit
  pc : Nat
deriving DecidableEq

/-- `CPU.__init__`. -/
def CPU.init (instructions : List String) : CPUState :=
  { instructions := instructions
    issue_cycle := List.replicate instructions.length 0
    finish_cycle := List.replicate instructions.length 0
    cdb := CommonDataBus.init
    memory := MemoryUnit.init 3 2
    register_file := FPRegisterFile.init 32
    adder := FloatingPointUnit.init "Add" 3 adderLatencies
    multiplier := FloatingPointUnit.init "Mult" 2 multiplierLatencies
    pc := 0 }

/-- `CPU.issue`.  For the four register-register ops `main.py` executes
`self._adder.issue(pc, op, op1, op1_fu, op2, op2_fu)` (and the analogous
multiplier call): six positional arguments for the five-parameter
`FloatingPointUnit.issue`, so Python raises TypeError before any state is
modified (the register reads evaluated earlier are pure).  For LD/SD the
arities match; note the `base` argument `main.py` passes is the integer
program counter, not a base-register value. -/
def CPU.issue (s : CPUState) (instruction : String) (pc : Nat) :
    Except String (Bool × CPUState) :=
  match pySplit instruction with
  | [op, dst, src1, src2] =>
    if op == "ADDD" || op == "SUBD" then
      Except.error "TypeError: issue() takes 6 positional arguments but 7 were given"
    else if op == "MULTD" || op == "DIVD" then
      Except.error "TypeError: issue() takes 6 positional arguments but 7 were given"
    else if op == "LD" then
      let r := s.memory.issue_load (PyVal.int pc) src2 (removePlus src1)
      let s1 := { s with memory := r.2 }
      let s2 :=
        if r.1 ≠ "" then
          { s1 with register_file := s1.register_file.set_fu (regIndex dst) r.1 }
        else s1
      Except.ok (r.1 ≠ "", s2)
    else if op == "SD" then
      let rd := s.register_file.read s.cdb (regIndex dst)
      let r := s.memory.issue_store (PyVal.int pc) src2 (removePlus src1) rd.1 rd.2
      Except.ok (r.1 ≠ "", { s with memory := r.2 })
    else Except.error ("ValueError: Invalid operation: " ++ op)
  | _ => Except.error "ValueError: not enough values to unpack"

/-- The issue phase of one iteration of the `while` loop in `CPU.run`:
attempt to issue `instructions[pc]` when the program counter is not
exhausted; on success record the issue cycle and advance the program
counter. -/
def issuePhase (s : CPUState) (cycles : Nat) : Except String CPUState :=
  if s.pc < s.instructions.length then
    match CPU.issue s (s.instructions.getD s.pc "") s.pc with
    | Except.error e => Except.error e
    | Except.ok (issued, s1) =>
      if issued then
        Except.ok { s1 with issue_cycle := s1.issue_cycle.set s1.pc cycles, pc := s1.pc + 1 }
      else Except.ok s1
  else Except.ok s

/-- One iteration of the `while` loop of `CPU.run`.  After the issue phase
the loop executes `record = []` followed by `record += self._adder.tick()`.
`FloatingPointUnit.tick` has no return statement, so it returns `None`,
and `list += None` raises TypeError; if the tick itself raised, that
exception propagates instead.  Either way the iteration aborts here, and
the multiplier/memory ticks, `register_file.tick()` and `cdb.tick()` that
follow in the source are never reached. -/
def cycleBody (s : CPUState) (cycles : Nat) : Except String CPUState :=
  match issuePhase s cycles with
  | Except.error e => Except.error e
  | Except.ok s1 =>
    match s1.adder.tick s1.cdb with
    | none => Except.error "TypeError: unsupported operand type(s)"
    | some _ => Except.error "TypeError: NoneType object is not iterable"

/-- The `while` condition of `CPU.run`. -/
def loopGuard (s : CPUState) : Bool :=
  decide (s.pc < s.instructions.length)
    || !s.adder.finished || !s.multiplier.finished || !s.memory.finished

/-- The `while` loop of `CPU.run`, fuel-bounded: `none` means the fuel ran
out, `some (Except.ok s)` a normal exit of the loop, `some (Except.error e)`
a Python exception aborting the run. -/
def runLoop : Nat → Nat → CPUState → Option (Except String CPUState)
  | 0, _, _ => none
  | fuel + 1, cycles, s =>
    if loopGuard s then
      match cycleBody s cycles with
      | Except.error e => some (Except.error e)
      | Except.ok s1 => runLoop fuel (cycles + 1) s1
    else some (Except.ok s)

/-- `CPU.run` (the loop starts with `cycles = 1`). -/
def CPU.run (fuel : Nat) (s : CPUState) : Option (Except String CPUState) :=
  runLoop fuel 1 s

/-- Whether a loop-body result is a Python exception. -/
def isErrorResult : Except String CPUState → Bool
  | Except.error _ => true
  | Except.ok _ => false

/-! ### Cycle iteration helpers for unit-level traces

In `CPU.run` each unit is ticked once per cycle and then the CDB commits;
these helpers replay that cycle structure for a single unit driven in
isolation, exactly as the spec describes a unit's per-cycle `advance`. -/

/-- One cycle of a floating-point unit alone: `tick` the unit, then commit
the CDB. -/
def fpCycle (p : FloatingPointUnit × CommonDataBus) :
    Option (FloatingPointUnit × CommonDataBus) :=
  match p.1.tick p.2 with
  | some q => some (q.1, q.2.tick)
  | none => none

def fpRun : Nat → (FloatingPointUnit × CommonDataBus) →
    Option (FloatingPointUnit × CommonDataBus)
  | 0, p => some p
  | n + 1, p =>
    match fpCycle p with
    | some q => fpRun n q
    | none => none

/-- One cycle of the memory unit alone: `tick` the unit, then commit the
CDB. -/
def memCycle (p : MemoryUnit × CommonDataBus) : MemoryUnit × CommonDataBus :=
  let q := p.1.tick p.2
  (q.1, q.2.tick)

def memRun : Nat → (MemoryUnit × CommonDataBus) → MemoryUnit × CommonDataBus
  | 0, p => p
  | n + 1, p => memRun n (memCycle p)

/-! ### Concrete states used in the theorems below -/

/-- A one-station adder (as configured by `CPU.__init__`, but with a
single reservation station) right after issuing `ADDD` with both operands
resolved to the strings "1" and "2". -/
def adder1_issued : FloatingPointUnit × CommonDataBus :=
  (((FloatingPointUnit.init "Add" 1 adderLatencies).issue "ADDD" "1" "" "2" "").2,
   CommonDataBus.init)

/-- The CPU's three-station adder right after issuing `ADDD` with both
operands resolved to the strings "1" and "2". -/
def adder3_issued : FloatingPointUnit × CommonDataBus :=
  (((FloatingPointUnit.init "Add" 3 adderLatencies).issue "ADDD" "1" "" "2" "").2,
   CommonDataBus.init)

/-- The CPU's memory unit (3 buffers, 2-cycle latency) right after issuing
a load whose base address is already resolved (base "1", no pending tag,
offset "34"). -/
def c4_start : MemoryUnit :=
  ((MemoryUnit.init 3 2).issue_load (PyVal.str "1") "" "34").2

/-- `c4_start` with the load cycle counter at `k`; `c4_start` itself is
`c4_state (-1)`. -/
def c4_state (k : Int) : MemoryUnit :=
  { c4_start with load_cycle_counter := k }

/-- A one-station adder whose tail slot is busy. -/
def c10_fpu : FloatingPointUnit :=
  ⟨"Add", 1, adderLatencies, [⟨true, "ADDD", "1", "2", "", ""⟩], 0, 0, -1⟩

/-- A memory unit whose load-buffer tail slot and store-buffer tail slot
are both busy. -/
def c10_mem : MemoryUnit :=
  ⟨3, 2, [], [⟨true, "34", ""⟩, LoadEntry.empty, LoadEntry.empty], 0, 0, -1,
   [⟨true, "34", "5", "", ""⟩, StoreEntry.empty, StoreEntry.empty], 0, 0⟩

/-- An adder whose head station holds `ADDD` with both operands resolved
and whose countdown has not started. -/
def c8_ready_unit : FloatingPointUnit :=
  ⟨"Add", 3, adderLatencies,
   [⟨true, "ADDD", "1", "2", "", ""⟩, RSEntry.empty, RSEntry.empty], 0, 1, -1⟩

/-- An adder whose head station holds `ADDD` with both operands resolved,
one countdown step before completion. -/
def c8_exec_unit : FloatingPointUnit :=
  ⟨"Add", 3, adderLatencies,
   [⟨true, "ADDD", "1", "2", "", ""⟩, RSEntry.empty, RSEntry.empty], 0, 1, 1⟩

/-- The CPU's multiplier whose head station holds `MULTD` with both
operands resolved, one countdown step before completion. -/
def c8_mult_unit : FloatingPointUnit :=
  ⟨"Mult", 2, multiplierLatencies,
   [⟨true, "MULTD", "1", "2", "", ""⟩, RSEntry.empty], 0, 1, 1⟩

/-! ### Helper lemmas -/

/-- No iteration of the run loop of `CPU.run` completes normally: after
the issue phase, collecting the adder's per-cycle record raises. -/
theorem cycleBody_never_ok (s : CPUState) (cycles : Nat) (s1 : CPUState) :
    cycleBody s cycles ≠ Except.ok s1 := by
  unfold cycleBody
  cases h : issuePhase s cycles with
  | error e => simp
  | ok s2 => cases h2 : s2.adder.tick s2.cdb <;> simp [h2]

/-! ### Claims -/

/-- C6: the Broadcast Channel is two-phase: `write` only stages, so `read`
keeps returning the previously committed pair; `tick` atomically replaces
the committed pair with the staged pair and clears the staged slot. -/
theorem c6_cdb_two_phase (c : CommonDataBus) (t d : String) :
    (c.write t d).read = c.read
    ∧ ((c.write t d).tick).read = (t, d)
    ∧ (c.tick).read = (c.new_tag, c.new_data)
    ∧ (c.tick).new_tag = "" ∧ (c.tick).new_data = "" :=
  ⟨rfl, rfl, rfl, rfl, rfl⟩

/-- C5 counterexample: two writes staged in the same cycle are silently
resolved by the last write overwriting the earlier one — the channel state
retains no trace of the first write and, after the commit, carries exactly
the second pair; no error of any kind occurs.  This contradicts the claim
that the system fails fast with a fatal error. -/
theorem c5_second_write_silently_wins :
    ((CommonDataBus.init.write "Load0" "x").write "Store0" "y")
        = CommonDataBus.init.write "Store0" "y"
    ∧ (((CommonDataBus.init.write "Load0" "x").write "Store0" "y").tick).read
        = ("Store0", "y") :=
  ⟨rfl, rfl⟩

/-- C5 amended: if two producers stage a result on the Broadcast Channel
in the same cycle, the second write silently overwrites the first
(last-write-wins); the channel behaves as if only the second write
happened and no error is signalled. -/
theorem c5_last_write_wins (c : CommonDataBus) (t1 d1 t2 d2 : String) :
    ((c.write t1 d1).write t2 d2) = c.write t2 d2
    ∧ (((c.write t1 d1).write t2 d2).tick).read = (t2, d2) :=
  ⟨rfl, rfl⟩

/-- C9: in a fresh register file read with an idle bus, register 0 has no
pending producer tag and stores the value "R(F0)", yet `read` returns the
bus's (empty) data field instead of the stored value, because the
forwarding branch `tag == fu` fires with both strings empty.  The claim
that a register with no pending tag reads as its stored value is false. -/
theorem c9_ready_register_reads_bus_data :
    ((FPRegisterFile.init 32).registers.getD 0 ⟨"", ""⟩) = ⟨"", "R(F0)"⟩
    ∧ (FPRegisterFile.init 32).read CommonDataBus.init 0 = ("", "") :=
  ⟨rfl, rfl⟩

/-- C1: a station that successfully wrote its result is never destroyed:
after the one-station adder completes its `ADDD` (the result ("Add0","12")
is committed on the bus after the third cycle), one cycle later the slot's
busy flag is still true and a new issue into the wrapped-around tail slot
fails, so the slot is never freed for reuse. -/
theorem c1_retired_slot_never_freed :
    ((fpRun 3 adder1_issued).map (fun p => p.2.read)) = some ("Add0", "12")
    ∧ ((fpRun 4 adder1_issued).map (fun p =>
        ((p.1.rs.getD 0 RSEntry.empty).busy, (p.1.issue "ADDD" "3" "" "4" "").1)))
      = some (true, "") :=
  ⟨rfl, rfl⟩

/-- C2 counterexample: after the three-station adder completes its single
`ADDD`, the head has advanced to slot 1 and `finished()` returns true, yet
slot 0's busy flag is still set — so `finished()` is not equivalent to "no
busy slot remains in the unit". -/
theorem c2_finished_despite_busy_slot :
    ((fpRun 3 adder3_issued).map (fun p =>
      (p.1.finished, (p.1.rs.getD 0 RSEntry.empty).busy))) = some (true, true) :=
  rfl

/-- C2 amended: `finished()` on each unit returns true iff that unit's
HEAD slot is not busy (a non-head slot may still be busy, see the
counterexample); and the run loop of `CPU.run` exits normally exactly from
states in which the program counter has consumed all instructions and
every unit's `finished()` returns true. -/
theorem c2_finished_head_and_loop_exit :
    (∀ u : FloatingPointUnit, u.finished = !(u.rs.getD u.rs_head RSEntry.empty).busy)
    ∧ (∀ m : MemoryUnit, m.finished
        = (!(m.load_buffers.getD m.load_buffer_head LoadEntry.empty).busy
           && !(m.store_buffers.getD m.store_buffer_head StoreEntry.empty).busy))
    ∧ (∀ s : CPUState, loopGuard s = false ↔
        (s.instructions.length ≤ s.pc ∧ s.adder.finished = true
         ∧ s.multiplier.finished = true ∧ s.memory.finished = true))
    ∧ (∀ (fuel cycles : Nat) (s s1 : CPUState),
        runLoop fuel cycles s = some (Except.ok s1) → loopGuard s = false ∧ s1 = s)
    ∧ (∀ (fuel cycles : Nat) (s : CPUState),
        loopGuard s = false → runLoop (fuel + 1) cycles s = some (Except.ok s)) := by
  refine ⟨fun u => rfl, fun m => rfl, ?_, ?_, ?_⟩
  · intro s
    simp [loopGuard, Nat.not_lt, and_assoc]
  · intro fuel cycles s s1 h
    match fuel with
    | 0 => simp [runLoop] at h
    | fuel + 1 =>
      rw [runLoop] at h
      by_cases hg : loopGuard s
      · rw [if_pos hg] at h
        exfalso
        cases hb : cycleBody s cycles with
        | error e => rw [hb] at h; simp at h
        | ok s2 => exact cycleBody_never_ok s cycles s2 hb
      · rw [if_neg hg] at h
        simp at h
        exact ⟨Bool.of_not_eq_true hg, h.symm⟩
  · intro fuel cycles s h
    rw [runLoop, if_neg (by simp [h])]

/-- C2 witness: the empty instruction stream gives a state whose loop
guard is false; the run loop exits normally on it, and the exit state
satisfies the characterization. -/
theorem c2_loop_exit_witness :
    loopGuard (CPU.init []) = false
    ∧ runLoop 3 1 (CPU.init []) = some (Except.ok (CPU.init []))
    ∧ (loopGuard (CPU.init []) = false ∧ CPU.init [] = CPU.init []) :=
  ⟨rfl,
   c2_finished_head_and_loop_exit.2.2.2.2 2 1 (CPU.init []) rfl,
   c2_finished_head_and_loop_exit.2.2.2.1 3 1 (CPU.init []) (CPU.init [])
     (c2_finished_head_and_loop_exit.2.2.2.2 2 1 (CPU.init []) rfl)⟩

/-- C3: the run over the single-instruction stream ["LD F6 34+ R2"] never
completes: whatever the fuel, the first loop iteration issues the load and
then aborts with a TypeError when `record += self._adder.tick()` adds the
`None` returned by `tick` to a list.  The claimed termination with all
instructions issued never happens. -/
theorem c3_run_crashes_in_first_cycle (fuel : Nat) :
    CPU.run (fuel + 1) (CPU.init ["LD F6 34+ R2"])
      = some (Except.error "TypeError: NoneType object is not iterable") := by
  have hg : loopGuard (CPU.init ["LD F6 34+ R2"]) = true := rfl
  have hb : cycleBody (CPU.init ["LD F6 34+ R2"]) 1
      = Except.error "TypeError: NoneType object is not iterable" := rfl
  rw [CPU.run, runLoop, if_pos hg, hb]

/-- C7: no cycle of the run loop ever reaches the claimed
commit-broadcast and register-file phases: every iteration of the loop
body aborts with a TypeError right after the adder advances (first
conjunct); concretely, the first cycle over ["SD F6 34+ R2"] issues the
store and then dies (second conjunct).  The write-back statements the
source would otherwise run are `register_file.tick()` followed by
`cdb.tick()` — the reverse of the claimed order. -/
theorem c7_no_cycle_reaches_writeback :
    (∀ (s : CPUState) (cycles : Nat), isErrorResult (cycleBody s cycles) = true)
    ∧ cycleBody (CPU.init ["SD F6 34+ R2"]) 1
        = Except.error "TypeError: NoneType object is not iterable" := by
  refine ⟨?_, rfl⟩
  intro s cycles
  cases hb : cycleBody s cycles with
  | error e => simp [isErrorResult]
  | ok s1 => exact absurd hb (cycleBody_never_ok s cycles s1)

/-- One isolated cycle of the memory unit holding the pending load of
`c4_start`: with an idle bus and a nonzero load cycle counter, the tick
only decrements the counter and stages nothing. -/
theorem c4_cycle_step (k : Int) (h : k ≠ 0) :
    memCycle (c4_state k, CommonDataBus.init) = (c4_state (k - 1), CommonDataBus.init) := by
  have hk : (k == 0) = false := by simpa using h
  simp [memCycle, MemoryUnit.tick, c4_state, c4_start, MemoryUnit.issue_load,
        MemoryUnit.init, CommonDataBus.read, CommonDataBus.tick, CommonDataBus.init,
        PyVal.truthy, PyVal.fmt, LoadEntry.empty, StoreEntry.empty, hk]

/-- Iterating `c4_cycle_step` from any negative counter value. -/
theorem c4_run_stuck (n : Nat) :
    ∀ k : Int, k < 0 →
      memRun n (c4_state k, CommonDataBus.init) = (c4_state (k - n), CommonDataBus.init) := by
  induction n with
  | zero => intro k hk; simp [memRun]
  | succ n ih =>
    intro k hk
    have h1 : memRun (n + 1) (c4_state k, CommonDataBus.init)
        = memRun n (memCycle (c4_state k, CommonDataBus.init)) := rfl
    rw [h1, c4_cycle_step k (by omega), ih (k - 1) (by omega)]
    have h2 : k - 1 - (n : Int) = k - ((n : Nat) + 1 : Nat) := by push_cast; ring
    rw [h2]

/-- C4: the head load of `c4_start` is busy with its base address resolved
(the address string is "1 + 34"), yet it never completes: however many
cycles pass, the head never advances, the entry stays busy, and nothing is
ever staged on the Broadcast Channel, because the load cycle counter
starts at -1 and only the exact value 0 triggers completion, so the
counter just keeps decreasing. -/
theorem c4_head_load_never_completes (n : Nat) :
    memRun n (c4_start, CommonDataBus.init) = (c4_state (-1 - n), CommonDataBus.init)
    ∧ (c4_state (-1 - n)).load_buffers.getD 0 LoadEntry.empty
        = ⟨true, "1 + 34", ""⟩
    ∧ (c4_state (-1 - n)).load_buffer_head = 0
    ∧ (CommonDataBus.init).new_tag = "" ∧ (CommonDataBus.init).read = ("", "") := by
  have h1 : c4_start = c4_state (-1) := rfl
  refine ⟨?_, rfl, rfl, rfl, rfl⟩
  rw [h1, c4_run_stuck n (-1) (by norm_num)]


/-- C8 counterexample: the three-station adder completes its `ADDD` whose
operands are the resolved strings "1" and "2"; the value committed on the
Broadcast Channel is "12" — Python string concatenation of the two
operands — not their numeric sum.  The claim that the unit computes the
numeric result of the operation over the resolved operands is false. -/
theorem c8_addd_concatenates_not_sums :
    ((fpRun 3 adder3_issued).map (fun p => p.2.read)) = some ("Add0", "12")
    ∧ ("12" == "3") = false ∧ ("12" == "3.0") = false :=
  ⟨rfl, rfl, rfl⟩

/-- C8 amended: once both operand tags of the head station are resolved,
the countdown starts at the per-op latency from the unit's table (with the
CPU's tables: ADDD/SUBD = 2, MULTD = 10, DIVD = 20); in the final
countdown step the unit computes the result by Python string semantics —
for ADDD the concatenation of the two operand strings — and stages it on
the Broadcast Channel under the head slot's tag; for the multiplier's
"MULTD" op no execute branch matches, so the final step raises instead of
staging a product. -/
theorem c8_latency_and_execution :
    (lookup adderLatencies "ADDD" = some 2 ∧ lookup adderLatencies "SUBD" = some 2
     ∧ lookup multiplierLatencies "MULTD" = some 10
     ∧ lookup multiplierLatencies "DIVD" = some 20)
    ∧ (∀ (u : FloatingPointUnit) (c : CommonDataBus) (op vj vk : String) (L : Int),
        c.tag = "" →
        u.rs.getD u.rs_head RSEntry.empty = ⟨true, op, vj, vk, "", ""⟩ →
        u.cycle_counter = -1 →
        lookup u.n_cycles op = some L →
        u.tick c = some ({ u with cycle_counter := L }, c))
    ∧ (∀ (u : FloatingPointUnit) (c : CommonDataBus) (vj vk : String),
        c.tag = "" →
        u.rs.getD u.rs_head RSEntry.empty = ⟨true, "ADDD", vj, vk, "", ""⟩ →
        u.cycle_counter = 1 →
        u.tick c = some ({ u with rs_head := (u.rs_head + 1) % u.n_rs, cycle_counter := -1 },
                         c.write (u.name ++ toString u.rs_head) (vj ++ vk)))
    ∧ (∀ (u : FloatingPointUnit) (c : CommonDataBus) (vj vk : String),
        c.tag = "" →
        u.rs.getD u.rs_head RSEntry.empty = ⟨true, "MULTD", vj, vk, "", ""⟩ →
        u.cycle_counter = 1 →
        u.tick c = none) := by
  refine ⟨⟨rfl, rfl, rfl, rfl⟩, ?_, ?_, ?_⟩
  · intro u c op vj vk L hc hE hcc hL
    rw [List.getD_eq_getElem?_getD] at hE
    unfold FloatingPointUnit.tick
    simp [CommonDataBus.read, hc, hE, hcc, hL]
  · intro u c vj vk hc hE hcc
    rw [List.getD_eq_getElem?_getD] at hE
    unfold FloatingPointUnit.tick
    simp [CommonDataBus.read, hc, hE, hcc, fpExec]
  · intro u c vj vk hc hE hcc
    rw [List.getD_eq_getElem?_getD] at hE
    unfold FloatingPointUnit.tick
    simp [CommonDataBus.read, hc, hE, hcc, fpExec]

/-- C8 witness: the three clauses of the amended claim at concrete units:
the ready `ADDD` head starts its countdown at 2; the `ADDD` head one step
from completion stages the concatenation under tag "Add0"; the `MULTD`
head one step from completion raises. -/
theorem c8_latency_and_execution_witness :
    c8_ready_unit.tick CommonDataBus.init
      = some ({ c8_ready_unit with cycle_counter := 2 }, CommonDataBus.init)
    ∧ c8_exec_unit.tick CommonDataBus.init
      = some ({ c8_exec_unit with
                rs_head := (c8_exec_unit.rs_head + 1) % c8_exec_unit.n_rs
                cycle_counter := -1 },
              CommonDataBus.init.write (c8_exec_unit.name ++ toString c8_exec_unit.rs_head)
                ("1" ++ "2"))
    ∧ c8_mult_unit.tick CommonDataBus.init = none :=
  ⟨c8_latency_and_execution.2.1 c8_ready_unit CommonDataBus.init "ADDD" "1" "2" 2
     rfl rfl rfl rfl,
   c8_latency_and_execution.2.2.1 c8_exec_unit CommonDataBus.init "1" "2" rfl rfl rfl,
   c8_latency_and_execution.2.2.2 c8_mult_unit CommonDataBus.init "1" "2" rfl rfl rfl⟩

/-- C10: an issue that fails because the tail slot is busy returns the
empty tag and leaves the unit completely unchanged — the same
`FloatingPointUnit` / `MemoryUnit` value comes back, so no slot contents,
head or tail index, or cycle counter is modified, and the caller can retry
the identical call on a later cycle. -/
theorem c10_failed_issue_leaves_state_unchanged :
    (∀ (u : FloatingPointUnit) (op op1 op1_fu op2 op2_fu : String),
      (u.rs.getD u.rs_tail RSEntry.empty).busy = true →
      u.issue op op1 op1_fu op2 op2_fu = ("", u))
    ∧ (∀ (m : MemoryUnit) (base : PyVal) (base_fu offset : String),
      (m.load_buffers.getD m.load_buffer_tail LoadEntry.empty).busy = true →
      m.issue_load base base_fu offset = ("", m))
    ∧ (∀ (m : MemoryUnit) (base : PyVal) (base_fu offset data data_fu : String),
      (m.store_buffers.getD m.store_buffer_tail StoreEntry.empty).busy = true →
      m.issue_store base base_fu offset data data_fu = ("", m)) := by
  refine ⟨?_, ?_, ?_⟩
  · intro u op op1 op1_fu op2 op2_fu h
    unfold FloatingPointUnit.issue
    rw [if_pos h]
  · intro m base base_fu offset h
    unfold MemoryUnit.issue_load
    rw [if_pos h]
  · intro m base base_fu offset data data_fu h
    unfold MemoryUnit.issue_store
    rw [if_pos h]

/-- C10 witness: a failed issue at concrete full units returns the empty
tag and the unchanged unit. -/
theorem c10_failed_issue_witness :
    c10_fpu.issue "SUBD" "9" "" "8" "" = ("", c10_fpu)
    ∧ c10_mem.issue_load (PyVal.str "") "" "1" = ("", c10_mem)
    ∧ c10_mem.issue_store (PyVal.str "") "" "1" "2" "" = ("", c10_mem) :=
  ⟨c10_failed_issue_leaves_state_unchanged.1 c10_fpu "SUBD" "9" "" "8" "" rfl,
   c10_failed_issue_leaves_state_unchanged.2.1 c10_mem (PyVal.str "") "" "1" rfl,
   c10_failed_issue_leaves_state_unchanged.2.2 c10_mem (PyVal.str "") "" "1" "2" "" rfl⟩
